import Mathlib

/-!
# Verification of the PGx extraction-and-classification engine

A shallow embedding of `uploader/services/pgx_engine.py` and proofs of the
spec's claims about it.  Python strings are modelled as Lean `String`s
(processed as their `List Char` of code points); the character classes and
case maps of the engine's regular expressions are modelled over the ASCII
range, which covers every constant the engine matches against.  Python
`dict`s (insertion ordered) are modelled as association lists, Python
`None`-or-value results as `Option`, the single raised exception as
`Except`.  Floating-point confidence arithmetic is modelled over `ℚ`: every
score is an exact multiple of 1/10, on which Python's `round(x, 2)` is the
identity, so the rounding step is omitted.
-/

/-- Python `str.strip()` whitespace set (ASCII part). -/
def isPySpace (c : Char) : Bool :=
  c = ' ' || c = '\t' || c = '\n' || c = '\r' || c = '\x0b' || c = '\x0c'

/-- Python `str.strip()` on a character list: drop whitespace on both ends. -/
def pyStripL (l : List Char) : List Char :=
  ((l.dropWhile isPySpace).reverse.dropWhile isPySpace).reverse

/-- Python `str.strip()`. -/
def pyStrip (s : String) : String :=
  String.mk (pyStripL s.data)

/-- Python `str.upper()` (ASCII range, the only range the engine relies on). -/
def pyUpper (s : String) : String :=
  String.mk (s.data.map Char.toUpper)

/-- Python `str.lower()` (ASCII range). -/
def pyLower (s : String) : String :=
  String.mk (s.data.map Char.toLower)

/-- Python `str.splitlines()` restricted to the `\n`, `\r\n` and `\r`
terminators (the ones occurring in the engine's inputs): line breaks
separate lines and a trailing break produces no extra empty line. -/
def pySplitlinesAux (acc : List Char) : List Char → List (List Char)
  | [] => if acc = [] then [] else [acc.reverse]
  | '\r' :: '\n' :: t => acc.reverse :: pySplitlinesAux [] t
  | '\n' :: t => acc.reverse :: pySplitlinesAux [] t
  | '\r' :: t => acc.reverse :: pySplitlinesAux [] t
  | c :: t => pySplitlinesAux (c :: acc) t

/-- Python `str.splitlines()` returning raw character lists. -/
def pySplitlines (s : String) : List (List Char) :=
  pySplitlinesAux [] s.data

/-- Python `str.split(sep)` for a one-character separator. -/
def splitChar (sep : Char) : List Char → List (List Char)
  | [] => [[]]
  | c :: t =>
      let r := splitChar sep t
      if c = sep then [] :: r
      else
        match r with
        | h :: rest => (c :: h) :: rest
        | [] => [[c]]

/-- Python `str.rstrip("\n")` on a character list. -/
def rstripNl (l : List Char) : List Char :=
  (l.reverse.dropWhile (· = '\n')).reverse

/-- Substring test (Python `needle in hay`). -/
def listHasInfix (needle : List Char) : List Char → Bool
  | [] => needle.isEmpty
  | c :: t => needle.isPrefixOf (c :: t) || listHasInfix needle t

/-- Leftmost match of the regex `PAT([^S]+)` where `PAT` is the literal
`pat` and `S` the stop set: scan left to right for an occurrence of `pat`
followed by at least one character outside `stops`; the captured group is
the maximal run of such characters. -/
def findValueAfter (pat : List Char) (stops : List Char) : List Char → Option (List Char)
  | [] => none
  | c :: t =>
      if pat.isPrefixOf (c :: t) then
        let v := ((c :: t).drop pat.length).takeWhile (fun d => !(stops.contains d))
        if v = [] then findValueAfter pat stops t else some v
      else findValueAfter pat stops t

/-- ASCII model of the regex word class `\w`. -/
def isWordChar (c : Char) : Bool :=
  c.isAlphanum || c = '_'

/-- Leftmost match of the case-insensitive regex `\brs\d+\b`: `prev` is the
character preceding the scan position (`none` at the start of the line).
The matched token is returned lower-cased, as the engine does. -/
def findRs : Option Char → List Char → Option (List Char)
  | _, [] => none
  | prev, c :: t =>
      (if (match prev with | none => true | some p => !isWordChar p)
          && (c = 'r' || c = 'R') then
        match t with
        | s :: rest =>
            if s = 's' || s = 'S' then
              let digits := rest.takeWhile Char.isDigit
              let after := rest.drop digits.length
              if !digits.isEmpty &&
                  (match after with | [] => true | a :: _ => !isWordChar a) then
                some ((c :: s :: digits).map Char.toLower)
              else none
            else none
        | [] => none
      else none).orElse (fun _ => findRs (some c) t)

/-- All matches of the case-insensitive regex `\*[0-9A-Za-z]+(?:x\d+)?`
(equivalently: a `*` followed by a maximal nonempty alphanumeric run, since
the optional copy-number group only ever consumes alphanumeric characters
already taken by the greedy run).  The state holds the reversed run
collected since the last `*`, if one is open. -/
def findStarsAux (st : Option (List Char)) : List Char → List (List Char)
  | [] =>
      match st with
      | some revRun => if revRun = [] then [] else ['*' :: revRun.reverse]
      | none => []
  | c :: t =>
      match st with
      | some revRun =>
          if c.isAlphanum then findStarsAux (some (c :: revRun)) t
          else
            (if revRun = [] then [] else ['*' :: revRun.reverse]) ++
              findStarsAux (if c = '*' then some [] else none) t
      | none =>
          if c = '*' then findStarsAux (some []) t else findStarsAux none t

/-- Order-preserving deduplication (the engine's `if x not in acc: acc.append(x)`). -/
def dedupStr (xs : List String) : List String :=
  xs.foldl (fun acc s => if acc.contains s then acc else acc ++ [s]) []

/-- Value of a decimal digit run (`int` on the captured digits). -/
def natOfDigits (ds : List Char) : Nat :=
  ds.foldl (fun a c => 10 * a + (c.toNat - 48)) 0

/-- Lexicographic comparison of code-point sequences (Python `str` `<=`). -/
def lexLE : List Char → List Char → Bool
  | [], _ => true
  | _ :: _, [] => false
  | a :: as, b :: bs =>
      if a.toNat < b.toNat then true
      else if b.toNat < a.toNat then false
      else lexLE as bs

/-- Python tuple comparison on an `(int, str)` sort key. -/
def keyLE (a b : Nat × String) : Bool :=
  decide (a.1 < b.1) || (decide (a.1 = b.1) && lexLE a.2.data b.2.data)

/-- `pathlib.Path(filename).stem` for ordinary file names: the last
`/`-component with its final extension removed (a leading or trailing dot
does not start an extension). -/
def pathStem (filename : String) : String :=
  let name := ((splitChar '/' filename.data).getLastD [])
  let len := name.length
  let afterLen := (name.reverse.takeWhile (· ≠ '.')).length
  let i := len - 1 - afterLen
  if afterLen < len ∧ 0 < i ∧ i < len - 1 then String.mk (name.take i)
  else String.mk name

/-! ## Rule Catalog and data model (pgx_engine.py lines 6-98) -/

/-- `SUPPORTED_GENES`, in declaration order. -/
def SUPPORTED_GENES : List String := ["CYP2D6", "CYP2C19", "CYP2C9"]

/-- The keys of `CPIC_RULES`, in declaration order. -/
def SUPPORTED_DRUGS : List String := ["CODEINE", "CLOPIDOGREL", "WARFARIN"]

/-- `RuleDecision` dataclass. -/
structure RuleDecision where
  risk : String
  recommendation : String
deriving DecidableEq, Repr

/-- Per-gene accumulator (`parsed_genes[gene] = {"stars": [], "rsids": []}`). -/
structure GeneRecord where
  stars : List String
  rsids : List String
deriving DecidableEq, Repr

/-- The dict returned by `parse_vcf` (insertion-ordered gene map as an
association list). -/
structure ParsedFile where
  patient_id : String
  genes : List (String × GeneRecord)
  vcf_parsing_success : Bool
deriving DecidableEq, Repr

/-- The `quality_metrics` sub-dict of the result. -/
structure QualityMetrics where
  vcf_parsing_success : Bool
  gene_detected : Bool
  rule_applied : Bool
  confidence_score : ℚ
deriving DecidableEq, Repr

/-- The `clinical_trace` sub-dict of the result. -/
structure ClinicalTrace where
  drug_requested : String
  required_gene : String
  detected_diplotype : String
  derived_phenotype : String
  cpic_rule_applied : String
  final_risk_outcome : String
deriving DecidableEq, Repr

/-- The dict returned by `analyze_vcf_and_drug`. -/
structure AnalysisResult where
  patient_id : String
  drug : String
  gene : String
  diplotype : String
  phenotype : String
  risk : String
  recommendation : String
  severity : String
  confidence_score : ℚ
  rsids : List String
  parsed_genes : List (String × GeneRecord)
  quality_metrics : QualityMetrics
  clinical_trace : ClinicalTrace
deriving DecidableEq, Repr

/-- `PHENOTYPE_TABLE["CYP2D6"]`. -/
def cyp2d6Diplotypes (d : String) : Option String :=
  if d = "*1/*1" then some "NM"
  else if d = "*1/*4" then some "IM"
  else if d = "*4/*4" then some "PM"
  else none

/-- `PHENOTYPE_TABLE["CYP2C19"]`. -/
def cyp2c19Diplotypes (d : String) : Option String :=
  if d = "*1/*1" then some "NM"
  else if d = "*1/*2" then some "IM"
  else if d = "*2/*2" then some "PM"
  else none

/-- `PHENOTYPE_TABLE["CYP2C9"]`. -/
def cyp2c9Diplotypes (d : String) : Option String :=
  if d = "*1/*1" then some "NM"
  else if d = "*1/*3" then some "IM"
  else if d = "*3/*3" then some "PM"
  else none

/-- `PHENOTYPE_TABLE` as a gene-indexed lookup. -/
def PHENOTYPE_TABLE (gene : String) : Option (String → Option String) :=
  if gene = "CYP2D6" then some cyp2d6Diplotypes
  else if gene = "CYP2C19" then some cyp2c19Diplotypes
  else if gene = "CYP2C9" then some cyp2c9Diplotypes
  else none

/-- `CPIC_RULES[drug]["phenotypes"]` bundled with the required gene. -/
structure RuleConfig where
  gene : String
  phenotypes : String → Option RuleDecision

/-- `CPIC_RULES["CODEINE"]["phenotypes"]`. -/
def codeinePhenotypes (ph : String) : Option RuleDecision :=
  if ph = "NM" then
    some ⟨"Safe", "Use standard dosing per CPIC-guided interpretation."⟩
  else if ph = "IM" then
    some ⟨"Adjust Dosage", "Consider alternative analgesic or monitor for reduced effect."⟩
  else if ph = "PM" then
    some ⟨"Toxic", "Avoid codeine and use a non-CYP2D6-dependent analgesic."⟩
  else none

/-- `CPIC_RULES["CLOPIDOGREL"]["phenotypes"]`. -/
def clopidogrelPhenotypes (ph : String) : Option RuleDecision :=
  if ph = "NM" then
    some ⟨"Safe", "Use standard clopidogrel therapy."⟩
  else if ph = "IM" then
    some ⟨"Adjust Dosage", "Consider alternative antiplatelet based on clinical context."⟩
  else if ph = "PM" then
    some ⟨"Toxic", "Avoid clopidogrel; prefer alternative antiplatelet therapy."⟩
  else none

/-- `CPIC_RULES["WARFARIN"]["phenotypes"]`. -/
def warfarinPhenotypes (ph : String) : Option RuleDecision :=
  if ph = "NM" then
    some ⟨"Safe", "Use standard initiation with INR monitoring."⟩
  else if ph = "IM" then
    some ⟨"Adjust Dosage", "Consider lower initial dose and closer INR monitoring."⟩
  else if ph = "PM" then
    some ⟨"Toxic", "Use substantially lower dose and intensive INR monitoring."⟩
  else none

/-- `CPIC_RULES["CODEINE"]`. -/
def codeineConfig : RuleConfig := ⟨"CYP2D6", codeinePhenotypes⟩

/-- `CPIC_RULES["CLOPIDOGREL"]`. -/
def clopidogrelConfig : RuleConfig := ⟨"CYP2C19", clopidogrelPhenotypes⟩

/-- `CPIC_RULES["WARFARIN"]`. -/
def warfarinConfig : RuleConfig := ⟨"CYP2C9", warfarinPhenotypes⟩

/-- `CPIC_RULES` as a drug-indexed lookup. -/
def CPIC_RULES (drug : String) : Option RuleConfig :=
  if drug = "CODEINE" then some codeineConfig
  else if drug = "CLOPIDOGREL" then some clopidogrelConfig
  else if drug = "WARFARIN" then some warfarinConfig
  else none

/-- `SEVERITY_BY_RISK`. -/
def SEVERITY_BY_RISK (risk : String) : Option String :=
  if risk = "Safe" then some "none"
  else if risk = "Adjust Dosage" then some "moderate"
  else if risk = "Toxic" then some "high"
  else if risk = "Unknown" then some "moderate"
  else none

/-! ## Variant Extractor (pgx_engine.py lines 101-181) -/

/-- `_extract_patient_id`: first `##SAMPLE=` line with an `ID=([^,>]+)`
match wins (value stripped); else the first `#CHROM` line with more than 9
tab fields and a non-blank 10th field; else the fallback. -/
def _extract_patient_id (lines : List (List Char)) (fallback : String) : String :=
  match lines.findSome? (fun line =>
      if ("##SAMPLE=".data).isPrefixOf line then
        (findValueAfter "ID=".data [',', '>'] line).map (fun v => String.mk (pyStripL v))
      else none) with
  | some pid => pid
  | none =>
      match lines.findSome? (fun line =>
          if ("#CHROM".data).isPrefixOf line then
            let parts := splitChar '\t' line
            let sample := pyStripL (parts.getD 9 [])
            if parts.length > 9 ∧ sample ≠ [] then some (String.mk sample) else none
          else none) with
      | some pid => pid
      | none => fallback

/-- One `field=value` probe of `_extract_gene`: leftmost `FIELD=([^;]+)`
match, value truncated at the first comma and stripped. -/
def fieldRawValue (field : String) (u : String) : Option String :=
  (findValueAfter (field.data ++ ['=']) [';'] u.data).map
    (fun v => pyStrip (String.mk (v.takeWhile (fun c => c ≠ ','))))

/-- The structured-field loop of `_extract_gene`: fields tried in order; a
match whose value is outside the supported set falls through to the next
field. -/
def geneFieldLoop : List String → String → Option String
  | [], _ => none
  | f :: fs, u =>
      match fieldRawValue f u with
      | some raw => if raw ∈ SUPPORTED_GENES then some raw else geneFieldLoop fs u
      | none => geneFieldLoop fs u

/-- `_extract_gene`: structured lookup over the upper-cased text for the
four recognized field names, then a literal substring scan over the
supported genes in declaration order. -/
def _extract_gene (text : String) : Option String :=
  let u := pyUpper text
  match geneFieldLoop ["GENE", "SYMBOL", "GENE_NAME", "HGNC"] u with
  | some g => some g
  | none => SUPPORTED_GENES.find? (fun g => listHasInfix g.data u.data)

/-- `_extract_stars`: all star-allele regex matches, upper-cased, first
occurrence kept. -/
def _extract_stars (text : String) : List String :=
  dedupStr ((findStarsAux none text.data).map (fun l => String.mk (l.map Char.toUpper)))

/-- `_extract_rsid`: the stripped ID column verbatim when it starts with
`rs`, otherwise the leftmost lower-cased `\brs\d+\b` match in the line. -/
def _extract_rsid (line : List Char) (idColumn : String) : Option String :=
  if ("rs".data).isPrefixOf idColumn.data then some idColumn
  else (findRs none line).map String.mk

/-- `Path(filename).stem or "Unknown"`. -/
def stemOrUnknown (filename : String) : String :=
  if pathStem filename = "" then "Unknown" else pathStem filename

/-- Dictionary lookup in the insertion-ordered gene map
(`parsed_genes.get(gene)` / `parsed_genes[gene]`). -/
def lookupGene (genes : List (String × GeneRecord)) (gene : String) : Option GeneRecord :=
  (genes.find? (fun p => p.1 == gene)).map (·.2)

/-- The star-accumulation loop of `parse_vcf` (lines 170-172): append each
extracted token not already present. -/
def addStars (r : GeneRecord) (toks : List String) : GeneRecord :=
  toks.foldl (fun r s => if r.stars.contains s then r else { r with stars := r.stars ++ [s] }) r

/-- The rsID accumulation of `parse_vcf` (lines 174-175). -/
def addRsid (r : GeneRecord) (rsid : Option String) : GeneRecord :=
  match rsid with
  | some rs => if r.rsids.contains rs then r else { r with rsids := r.rsids ++ [rs] }
  | none => r

/-- Writing the updated record back into the insertion-ordered gene map
(dict creation-or-mutation of `parsed_genes[gene]`). -/
def upsertGene (genes : List (String × GeneRecord)) (gene : String) (r : GeneRecord) :
    List (String × GeneRecord) :=
  if (lookupGene genes gene).isSome then
    genes.map (fun p => if p.1 == gene then (gene, r) else p)
  else genes ++ [(gene, r)]

/-- The body of `parse_vcf`'s per-line loop, threading the gene map. -/
def processLine (genes : List (String × GeneRecord)) (line : List Char) : List (String × GeneRecord) :=
  if line = [] || ("#".data).isPrefixOf line then genes
  else
    let columns := splitChar '\t' line
    if columns.length < 8 then genes
    else
      let rsid := _extract_rsid line (String.mk (pyStripL (columns.getD 2 [])))
      let combined := String.mk (line ++ [';'] ++ pyStripL (columns.getD 7 []))
      match _extract_gene combined with
      | none => genes
      | some gene =>
          upsertGene genes gene
            (addRsid (addStars ((lookupGene genes gene).getD ⟨[], []⟩)
              (_extract_stars combined)) rsid)

/-- `parse_vcf`. -/
def parse_vcf (vcf_text : String) (filename : String) : ParsedFile :=
  let lines := (pySplitlines vcf_text).map rstripNl
  { patient_id := _extract_patient_id lines (stemOrUnknown filename)
    genes := lines.foldl processLine []
    vcf_parsing_success := true }

/-! ## Diplotype Builder and resolver (pgx_engine.py lines 184-216) -/

/-- `_star_sort_key`: `re.match(r"\*(\d+)(.*)", star)` gives
`(int(digits), rest-of-line-after-digits)`; otherwise the sentinel key
`(9999, star)`. -/
def _star_sort_key (star : String) : Nat × String :=
  match star.data with
  | c :: rest =>
      if c = '*' then
        let digits := rest.takeWhile Char.isDigit
        if digits = [] then (9999, star)
        else (natOfDigits digits,
              String.mk ((rest.drop digits.length).takeWhile (fun d => d ≠ '\n')))
      else (9999, star)
  | [] => (9999, star)

/-- `build_diplotype`: `None` below two tokens, else the first two tokens
stably sorted by `_star_sort_key` and joined with `/`. -/
def build_diplotype (stars : List String) : Option String :=
  match stars with
  | s0 :: s1 :: _ =>
      if keyLE (_star_sort_key s0) (_star_sort_key s1) then some (s0 ++ "/" ++ s1)
      else some (s1 ++ "/" ++ s0)
  | _ => none

/-- `map_phenotype`. -/
def map_phenotype (gene : String) (diplotype : Option String) : String :=
  match diplotype with
  | none => "Unknown"
  | some d => (((PHENOTYPE_TABLE gene).getD (fun _ => none)) d).getD "Unknown"

/-- The clamped sum of `_confidence_score`, counted in tenths (0.4/0.3/0.3
become 4/3/3) so that it stays kernel-computable. -/
def confidenceTenths (gene_detected diplotype_complete rule_applied : Bool) : Nat :=
  min ((if gene_detected then 4 else 0) + (if diplotype_complete then 3 else 0) +
       (if rule_applied then 3 else 0)) 10

/-- `_confidence_score` over exact rationals: the 0.4/0.3/0.3 signal sum,
clamped by `min(score, 1.0)`.  Every reachable score is an exact multiple
of 1/10, on which both Python's float addition of these literals and
`round(x, 2)` are exact, so the sum is computed in tenths and divided. -/
def _confidence_score (gene_detected diplotype_complete rule_applied : Bool) : ℚ :=
  (confidenceTenths gene_detected diplotype_complete rule_applied : ℚ) / 10

/-- `_unknown_recommendation`. -/
def _unknown_recommendation (required_gene : String) : String :=
  "Insufficient data to apply CPIC rule for " ++ required_gene ++ "."

/-! ## Analysis Orchestrator (pgx_engine.py lines 219-280) -/

/-- `drug_name.strip().upper()`. -/
def normalizeDrug (drug_name : String) : String :=
  pyUpper (pyStrip drug_name)

/-- The decode step of `analyze_vcf_and_drug`: `decoded` is the outcome of
`vcf_bytes.decode("utf-8")`, `none` standing for a `UnicodeDecodeError`,
which is absorbed into a degraded `ParsedFile`. -/
def decodedParse (decoded : Option String) (filename : String) : ParsedFile :=
  match decoded with
  | some text => parse_vcf text filename
  | none =>
      { patient_id := stemOrUnknown filename
        genes := []
        vcf_parsing_success := false }

/-- `parsed["genes"].get(required_gene)`. -/
def geneDataOf (parsed : ParsedFile) (gene : String) : Option GeneRecord :=
  lookupGene parsed.genes gene

/-- `bool(gene_data and (gene_data["stars"] or gene_data["rsids"]))`. -/
def geneDetectedOf (parsed : ParsedFile) (gene : String) : Bool :=
  match geneDataOf parsed gene with
  | some r => !r.stars.isEmpty || !r.rsids.isEmpty
  | none => false

/-- `build_diplotype(gene_data["stars"]) if gene_data else None`. -/
def diplotypeOf (parsed : ParsedFile) (gene : String) : Option String :=
  match geneDataOf parsed gene with
  | some r => build_diplotype r.stars
  | none => none

/-- `map_phenotype(required_gene, diplotype)`. -/
def phenotypeOf (parsed : ParsedFile) (gene : String) : String :=
  map_phenotype gene (diplotypeOf parsed gene)

/-- `rule_config["phenotypes"].get(phenotype)`. -/
def ruleDecisionOf (parsed : ParsedFile) (cfg : RuleConfig) : Option RuleDecision :=
  cfg.phenotypes (phenotypeOf parsed cfg.gene)

/-- The final risk: the matched decision's risk, else `"Unknown"`. -/
def riskOf (parsed : ParsedFile) (cfg : RuleConfig) : String :=
  match ruleDecisionOf parsed cfg with
  | some d => d.risk
  | none => "Unknown"

/-- The final recommendation: the matched decision's, else the generated
insufficient-data message. -/
def recommendationOf (parsed : ParsedFile) (cfg : RuleConfig) : String :=
  match ruleDecisionOf parsed cfg with
  | some d => d.recommendation
  | none => _unknown_recommendation cfg.gene

/-- The confidence score of the assembled result. -/
def confidenceOf (parsed : ParsedFile) (cfg : RuleConfig) : ℚ :=
  _confidence_score (geneDetectedOf parsed cfg.gene) (diplotypeOf parsed cfg.gene).isSome
    (ruleDecisionOf parsed cfg).isSome

/-- `gene_data["rsids"] if gene_data else []`. -/
def rsidsOf (parsed : ParsedFile) (gene : String) : List String :=
  match geneDataOf parsed gene with
  | some r => r.rsids
  | none => []

/-- The result dict assembled by `analyze_vcf_and_drug` (lines 254-280). -/
def buildResult (parsed : ParsedFile) (normalized_drug : String) (cfg : RuleConfig) : AnalysisResult :=
  { patient_id := parsed.patient_id
    drug := normalized_drug
    gene := cfg.gene
    diplotype := (diplotypeOf parsed cfg.gene).getD "Unknown"
    phenotype := phenotypeOf parsed cfg.gene
    risk := riskOf parsed cfg
    recommendation := recommendationOf parsed cfg
    severity := (SEVERITY_BY_RISK (riskOf parsed cfg)).getD "moderate"
    confidence_score := confidenceOf parsed cfg
    rsids := rsidsOf parsed cfg.gene
    parsed_genes := parsed.genes
    quality_metrics :=
      { vcf_parsing_success := parsed.vcf_parsing_success
        gene_detected := geneDetectedOf parsed cfg.gene
        rule_applied := (ruleDecisionOf parsed cfg).isSome
        confidence_score := confidenceOf parsed cfg }
    clinical_trace :=
      { drug_requested := normalized_drug
        required_gene := cfg.gene
        detected_diplotype := (diplotypeOf parsed cfg.gene).getD "Unknown"
        derived_phenotype := phenotypeOf parsed cfg.gene
        cpic_rule_applied := if (ruleDecisionOf parsed cfg).isSome then "Yes" else "No"
        final_risk_outcome := riskOf parsed cfg } }

/-- `analyze_vcf_and_drug`: the one raised condition is modelled as the
`Except.error` carrying the exception's message, which embeds the original
(non-normalized) drug name. -/
def analyze_vcf_and_drug (decoded : Option String) (filename drug_name : String) :
    Except String AnalysisResult :=
  let parsed := decodedParse decoded filename
  match CPIC_RULES (normalizeDrug drug_name) with
  | none => .error ("Unsupported drug: " ++ drug_name)
  | some cfg => .ok (buildResult parsed (normalizeDrug drug_name) cfg)

/-! ## Spec-side definitions used to state the claims -/

/-- The gene-detection strategy exactly as the specification words it: an
ordered structured-field lookup accepting only supported values, then a
substring scan over the supported genes in declaration order, first match
winning. -/
def extractGeneSpec (text : String) : Option String :=
  let u := pyUpper text
  (((["GENE", "SYMBOL", "GENE_NAME", "HGNC"] : List String).findSome? fun f =>
      (fieldRawValue f u).bind fun raw =>
        if raw ∈ SUPPORTED_GENES then some raw else none)).orElse
    (fun _ => SUPPORTED_GENES.find? (fun g => listHasInfix g.data u.data))

/-- The combined search text a data line is scanned over:
`line + ";" + stripped 8th column`. -/
def combinedOf (line : List Char) : String :=
  String.mk (line ++ [';'] ++ pyStripL ((splitChar '\t' line).getD 7 []))

/-- The "integer parsed from the leading digits after the `*` marker" of a
star token, as the specification describes it; `none` when no such digits
exist. -/
def specNumericKey (s : String) : Option Nat :=
  match s.data with
  | c :: rest =>
      if c = '*' then
        let digits := rest.takeWhile Char.isDigit
        if digits = [] then none else some (natOfDigits digits)
      else none
  | [] => none

/-- Concrete scenario file: two data lines tagging `CYP2D6` with star
tokens `*1` and `*4`. -/
def exC1Text : String :=
  "##SAMPLE=<ID=P1>\n#CHROM\tPOS\tID\tREF\tALT\tQUAL\tFILTER\tINFO\n" ++
  "1\t10001\trs3892097\tA\tG\t.\tPASS\tGENE=CYP2D6;STAR=*1\n" ++
  "1\t10002\trs1065852\tA\tG\t.\tPASS\tGENE=CYP2D6;STAR=*4\n"

/-- Concrete file whose required gene carries exactly one star allele. -/
def exOneStarText : String :=
  "1\t10001\trs3892097\tA\tG\t.\tPASS\tGENE=CYP2D6;STAR=*1\n"

/-- Concrete file whose required gene carries only an rsID and no star
tokens. -/
def exRsOnlyText : String :=
  "1\t10001\trs3892097\tA\tG\t.\tPASS\tGENE=CYP2D6\n"

/-- Concrete file whose ID column holds a mixed-case token beginning with
`rs`, which the engine stores verbatim. -/
def exMixedCaseRsText : String :=
  "1\t10001\trsAB1\tA\tG\t.\tPASS\tGENE=CYP2D6\n"

/-! ## Basic lemmas about the orchestrator's structure -/

/-- The three-way case split on a successful `CPIC_RULES` lookup. -/
lemma CPIC_RULES_cases {s : String} {cfg : RuleConfig} (h : CPIC_RULES s = some cfg) :
    (s = "CODEINE" ∧ cfg = codeineConfig) ∨ (s = "CLOPIDOGREL" ∧ cfg = clopidogrelConfig) ∨
      (s = "WARFARIN" ∧ cfg = warfarinConfig) := by
  unfold CPIC_RULES at h
  split_ifs at h <;> simp_all

/-- `CPIC_RULES` misses exactly outside the supported-drug list. -/
lemma CPIC_RULES_eq_none_iff (s : String) : CPIC_RULES s = none ↔ s ∉ SUPPORTED_DRUGS := by
  unfold CPIC_RULES SUPPORTED_DRUGS
  split_ifs with h1 h2 h3 <;> simp_all

/-- Successful analyses are exactly the assembled results for a supported
normalized drug. -/
lemma analyze_eq_ok_iff (d : Option String) (f dr : String) (res : AnalysisResult) :
    analyze_vcf_and_drug d f dr = .ok res ↔
      ∃ cfg, CPIC_RULES (normalizeDrug dr) = some cfg ∧
        res = buildResult (decodedParse d f) (normalizeDrug dr) cfg := by
  unfold analyze_vcf_and_drug
  cases h : CPIC_RULES (normalizeDrug dr) with
  | none => simp [h]
  | some cfg => simp [h, eq_comm]

/-- Failing analyses are exactly the unsupported-drug errors, and the error
message carries the original drug name. -/
lemma analyze_eq_error_iff (d : Option String) (f dr e : String) :
    analyze_vcf_and_drug d f dr = .error e ↔
      CPIC_RULES (normalizeDrug dr) = none ∧ e = "Unsupported drug: " ++ dr := by
  unfold analyze_vcf_and_drug
  cases h : CPIC_RULES (normalizeDrug dr) with
  | none => simp [h, eq_comm]
  | some cfg => simp [h]

/-- Every rule decision held in the catalog has a risk other than
`"Unknown"`. -/
lemma catalog_risk_ne_unknown {cfg : RuleConfig}
    (hcfg : cfg = codeineConfig ∨ cfg = clopidogrelConfig ∨ cfg = warfarinConfig)
    {ph : String} {dec : RuleDecision} (h : cfg.phenotypes ph = some dec) :
    dec.risk ≠ "Unknown" := by
  rcases hcfg with rfl | rfl | rfl
  · simp only [codeineConfig] at h
    unfold codeinePhenotypes at h
    split_ifs at h <;> simp_all <;> subst h <;> decide
  · simp only [clopidogrelConfig] at h
    unfold clopidogrelPhenotypes at h
    split_ifs at h <;> simp_all <;> subst h <;> decide
  · simp only [warfarinConfig] at h
    unfold warfarinPhenotypes at h
    split_ifs at h <;> simp_all <;> subst h <;> decide

/-- No catalog table has an entry for the `"Unknown"` phenotype. -/
lemma catalog_unknown_phenotype_none {cfg : RuleConfig}
    (hcfg : cfg = codeineConfig ∨ cfg = clopidogrelConfig ∨ cfg = warfarinConfig) :
    cfg.phenotypes "Unknown" = none := by
  rcases hcfg with rfl | rfl | rfl <;> rfl

/-- Every catalog table is total on the three phenotype labels. -/
lemma catalog_phenotype_isSome {cfg : RuleConfig}
    (hcfg : cfg = codeineConfig ∨ cfg = clopidogrelConfig ∨ cfg = warfarinConfig)
    {ph : String} (hph : ph ∈ (["NM", "IM", "PM"] : List String)) :
    (cfg.phenotypes ph).isSome = true := by
  have hph' : ph = "NM" ∨ ph = "IM" ∨ ph = "PM" := by simpa using hph
  rcases hcfg with rfl | rfl | rfl <;> rcases hph' with rfl | rfl | rfl <;> rfl

/-- A built diplotype needs at least two collected tokens. -/
lemma build_diplotype_some_shape {stars : List String} {d : String}
    (h : build_diplotype stars = some d) : stars ≠ [] ∧ 2 ≤ stars.length := by
  match stars with
  | [] => cases h
  | [s] => cases h
  | s0 :: s1 :: rest => exact ⟨by simp, by simp⟩

/-- A non-`"Unknown"` phenotype forces a complete diplotype and a detected
gene. -/
lemma phenotypeOf_ne_unknown {parsed : ParsedFile} {g : String}
    (h : phenotypeOf parsed g ≠ "Unknown") :
    (diplotypeOf parsed g).isSome = true ∧ geneDetectedOf parsed g = true := by
  unfold phenotypeOf map_phenotype at h
  cases hdip : diplotypeOf parsed g with
  | none => rw [hdip] at h; exact absurd rfl h
  | some dip =>
      refine ⟨rfl, ?_⟩
      unfold diplotypeOf at hdip
      unfold geneDetectedOf
      cases hgd : geneDataOf parsed g with
      | none => rw [hgd] at hdip; cases hdip
      | some r =>
          rw [hgd] at hdip
          have hne := (build_diplotype_some_shape hdip).1
          simp [List.isEmpty_iff, hne]

/-- `_confidence_score` as its tenths count, cast to `ℚ`. -/
lemma conf_cast (g d r : Bool) :
    _confidence_score g d r = (confidenceTenths g d r : ℚ) / 10 := rfl

/-- Score with no signals. -/
lemma conf_val_FFF : _confidence_score false false false = 0 := by
  rw [conf_cast, show confidenceTenths false false false = 0 from by decide]; norm_num

/-- Score with only the rule signal. -/
lemma conf_val_FFT : _confidence_score false false true = 0.3 := by
  rw [conf_cast, show confidenceTenths false false true = 3 from by decide]; norm_num

/-- Score with only the diplotype signal. -/
lemma conf_val_FTF : _confidence_score false true false = 0.3 := by
  rw [conf_cast, show confidenceTenths false true false = 3 from by decide]; norm_num

/-- Score with diplotype and rule signals. -/
lemma conf_val_FTT : _confidence_score false true true = 0.6 := by
  rw [conf_cast, show confidenceTenths false true true = 6 from by decide]; norm_num

/-- Score with only the gene signal. -/
lemma conf_val_TFF : _confidence_score true false false = 0.4 := by
  rw [conf_cast, show confidenceTenths true false false = 4 from by decide]; norm_num

/-- Score with gene and rule signals. -/
lemma conf_val_TFT : _confidence_score true false true = 0.7 := by
  rw [conf_cast, show confidenceTenths true false true = 7 from by decide]; norm_num

/-- Score with gene and diplotype signals. -/
lemma conf_val_TTF : _confidence_score true true false = 0.7 := by
  rw [conf_cast, show confidenceTenths true true false = 7 from by decide]; norm_num

/-- Score with all three signals. -/
lemma conf_val_TTT : _confidence_score true true true = 1 := by
  rw [conf_cast, show confidenceTenths true true true = 10 from by decide]; norm_num

/-- The assembled result's phenotype field. -/
lemma buildResult_phenotype (p : ParsedFile) (nd : String) (cfg : RuleConfig) :
    (buildResult p nd cfg).phenotype = phenotypeOf p cfg.gene := rfl

/-- The assembled result's risk field. -/
lemma buildResult_risk (p : ParsedFile) (nd : String) (cfg : RuleConfig) :
    (buildResult p nd cfg).risk = riskOf p cfg := rfl

/-- The assembled result's recommendation field. -/
lemma buildResult_recommendation (p : ParsedFile) (nd : String) (cfg : RuleConfig) :
    (buildResult p nd cfg).recommendation = recommendationOf p cfg := rfl

/-- The assembled result's confidence field. -/
lemma buildResult_confidence (p : ParsedFile) (nd : String) (cfg : RuleConfig) :
    (buildResult p nd cfg).confidence_score = confidenceOf p cfg := rfl

/-- The assembled result's diplotype field. -/
lemma buildResult_diplotype (p : ParsedFile) (nd : String) (cfg : RuleConfig) :
    (buildResult p nd cfg).diplotype = (diplotypeOf p cfg.gene).getD "Unknown" := rfl

/-- The assembled result's drug field. -/
lemma buildResult_drug (p : ParsedFile) (nd : String) (cfg : RuleConfig) :
    (buildResult p nd cfg).drug = nd := rfl

/-- The assembled result's gene field. -/
lemma buildResult_gene (p : ParsedFile) (nd : String) (cfg : RuleConfig) :
    (buildResult p nd cfg).gene = cfg.gene := rfl

/-- The assembled result's gene-map copy. -/
lemma buildResult_parsed_genes (p : ParsedFile) (nd : String) (cfg : RuleConfig) :
    (buildResult p nd cfg).parsed_genes = p.genes := rfl

/-- The assembled result's rule-applied flag. -/
lemma buildResult_rule_applied (p : ParsedFile) (nd : String) (cfg : RuleConfig) :
    (buildResult p nd cfg).quality_metrics.rule_applied = (ruleDecisionOf p cfg).isSome := rfl

/-- The assembled result's gene-detected flag. -/
lemma buildResult_gene_detected (p : ParsedFile) (nd : String) (cfg : RuleConfig) :
    (buildResult p nd cfg).quality_metrics.gene_detected = geneDetectedOf p cfg.gene := rfl

/-- The assembled result's mirrored trace flag. -/
lemma buildResult_trace_rule (p : ParsedFile) (nd : String) (cfg : RuleConfig) :
    (buildResult p nd cfg).clinical_trace.cpic_rule_applied =
      (if (ruleDecisionOf p cfg).isSome then "Yes" else "No") := rfl

/-! ## Claim theorems -/

/-- C2: for every input, `analyze_vcf_and_drug` fails if and only if the
trimmed upper-cased drug name is outside the fixed supported-drug set; a
failure carries exactly the unsupported-drug message embedding the original
(non-normalized) requested name, returns no result, and no other condition
ever crosses the core boundary (the function is total and its only error
value is that message). -/
theorem claim_C2_unsupported_drug_iff (d : Option String) (f dr : String) :
    (normalizeDrug dr ∈ SUPPORTED_DRUGS → ∃ res, analyze_vcf_and_drug d f dr = .ok res) ∧
    (normalizeDrug dr ∉ SUPPORTED_DRUGS →
      analyze_vcf_and_drug d f dr = .error ("Unsupported drug: " ++ dr)) ∧
    (∀ e, analyze_vcf_and_drug d f dr = .error e →
      normalizeDrug dr ∉ SUPPORTED_DRUGS ∧ e = "Unsupported drug: " ++ dr) := by
  refine ⟨?_, ?_, ?_⟩
  · intro hmem
    cases hC : CPIC_RULES (normalizeDrug dr) with
    | none => exact absurd ((CPIC_RULES_eq_none_iff _).1 hC) (not_not_intro hmem)
    | some cfg => exact ⟨_, (analyze_eq_ok_iff d f dr _).2 ⟨cfg, hC, rfl⟩⟩
  · intro hnot
    exact (analyze_eq_error_iff d f dr _).2 ⟨(CPIC_RULES_eq_none_iff _).2 hnot, rfl⟩
  · intro e he
    have h := (analyze_eq_error_iff d f dr e).1 he
    exact ⟨(CPIC_RULES_eq_none_iff _).1 h.1, h.2⟩

/-- C2 witness: `Ibuprofen` raises with the original name embedded;
`" codeine "` normalizes into the supported set and returns a result. -/
theorem claim_C2_witness :
    (normalizeDrug "Ibuprofen" ∉ SUPPORTED_DRUGS ∧
      analyze_vcf_and_drug none "patient.vcf" "Ibuprofen" =
        .error ("Unsupported drug: " ++ "Ibuprofen")) ∧
    (normalizeDrug " codeine " ∈ SUPPORTED_DRUGS ∧
      ∃ res, analyze_vcf_and_drug none "patient.vcf" " codeine " = .ok res) :=
  ⟨⟨by decide,
    (claim_C2_unsupported_drug_iff none "patient.vcf" "Ibuprofen").2.1 (by decide)⟩,
   ⟨by decide,
    (claim_C2_unsupported_drug_iff none "patient.vcf" " codeine ").1 (by decide)⟩⟩

/-- C4: when the bytes do not decode (modelled by `decoded = none`),
analysis of a supported drug still returns: the substituted parse carries
the file-name stem (or `"Unknown"`) as patient id, an empty gene map and a
false parse flag, and the result necessarily has phenotype `"Unknown"`,
risk `"Unknown"` and confidence 0. -/
theorem claim_C4_decode_failure_degrades (f dr : String) (res : AnalysisResult)
    (hok : analyze_vcf_and_drug none f dr = .ok res) :
    res.patient_id = stemOrUnknown f ∧ res.parsed_genes = [] ∧
    res.quality_metrics.vcf_parsing_success = false ∧
    res.phenotype = "Unknown" ∧ res.risk = "Unknown" ∧ res.confidence_score = 0 := by
  obtain ⟨cfg, hC, rfl⟩ := (analyze_eq_ok_iff none f dr res).1 hok
  have hcfg3 : cfg = codeineConfig ∨ cfg = clopidogrelConfig ∨ cfg = warfarinConfig := by
    rcases CPIC_RULES_cases hC with ⟨-, h⟩ | ⟨-, h⟩ | ⟨-, h⟩ <;> simp [h]
  have hg : geneDataOf (decodedParse none f) cfg.gene = none := rfl
  have hdip : diplotypeOf (decodedParse none f) cfg.gene = none := by
    unfold diplotypeOf; rw [hg]
  have hph : phenotypeOf (decodedParse none f) cfg.gene = "Unknown" := by
    unfold phenotypeOf; rw [hdip]; rfl
  have hrd : ruleDecisionOf (decodedParse none f) cfg = none := by
    unfold ruleDecisionOf; rw [hph]; exact catalog_unknown_phenotype_none hcfg3
  have hdet : geneDetectedOf (decodedParse none f) cfg.gene = false := by
    unfold geneDetectedOf; rw [hg]
  refine ⟨rfl, rfl, rfl, hph, ?_, ?_⟩
  · rw [buildResult_risk]; unfold riskOf; rw [hrd]
  · rw [buildResult_confidence]; unfold confidenceOf
    rw [hdet, hdip, hrd]
    exact conf_val_FFF

/-- C4 witness: the degraded analysis at a concrete undecodable input. -/
theorem claim_C4_witness :
    ∃ res, analyze_vcf_and_drug none "patient.vcf" "WARFARIN" = .ok res ∧
      res.patient_id = stemOrUnknown "patient.vcf" ∧ res.parsed_genes = [] ∧
      res.quality_metrics.vcf_parsing_success = false ∧
      res.phenotype = "Unknown" ∧ res.risk = "Unknown" ∧ res.confidence_score = 0 :=
  ⟨buildResult (decodedParse none "patient.vcf") "WARFARIN" warfarinConfig, rfl,
    claim_C4_decode_failure_degrades "patient.vcf" "WARFARIN" _ rfl⟩

/-- A token list shorter than two builds no diplotype. -/
lemma build_diplotype_short {stars : List String} (h : stars.length < 2) :
    build_diplotype stars = none := by
  match stars with
  | [] => rfl
  | [s] => rfl
  | a :: b :: t => exact absurd h (by simp only [List.length_cons]; omega)

/-- C5: when the drug's required gene is entirely absent from the parsed
gene map, the analysis reports risk `"Unknown"`, confidence 0, and the
generated recommendation naming the missing required gene. -/
theorem claim_C5_missing_gene_unknown (text f dr : String) (res : AnalysisResult)
    (hok : analyze_vcf_and_drug (some text) f dr = .ok res)
    (habs : lookupGene res.parsed_genes res.gene = none) :
    res.risk = "Unknown" ∧ res.confidence_score = 0 ∧
    res.recommendation = "Insufficient data to apply CPIC rule for " ++ res.gene ++ "." := by
  obtain ⟨cfg, hC, rfl⟩ := (analyze_eq_ok_iff (some text) f dr res).1 hok
  have hcfg3 : cfg = codeineConfig ∨ cfg = clopidogrelConfig ∨ cfg = warfarinConfig := by
    rcases CPIC_RULES_cases hC with ⟨-, h⟩ | ⟨-, h⟩ | ⟨-, h⟩ <;> simp [h]
  rw [buildResult_parsed_genes, buildResult_gene] at habs
  have hg : geneDataOf (decodedParse (some text) f) cfg.gene = none := habs
  have hdip : diplotypeOf (decodedParse (some text) f) cfg.gene = none := by
    unfold diplotypeOf; rw [hg]
  have hph : phenotypeOf (decodedParse (some text) f) cfg.gene = "Unknown" := by
    unfold phenotypeOf; rw [hdip]; rfl
  have hrd : ruleDecisionOf (decodedParse (some text) f) cfg = none := by
    unfold ruleDecisionOf; rw [hph]; exact catalog_unknown_phenotype_none hcfg3
  have hdet : geneDetectedOf (decodedParse (some text) f) cfg.gene = false := by
    unfold geneDetectedOf; rw [hg]
  refine ⟨?_, ?_, ?_⟩
  · rw [buildResult_risk]; unfold riskOf; rw [hrd]
  · rw [buildResult_confidence]; unfold confidenceOf
    rw [hdet, hdip, hrd]
    exact conf_val_FFF
  · rw [buildResult_recommendation, buildResult_gene]; unfold recommendationOf
    rw [hrd]; rfl

/-- C5 witness: a file carrying only `CYP2D6` analysed for `WARFARIN`
(required gene `CYP2C9` absent). -/
theorem claim_C5_witness :
    ∃ res, analyze_vcf_and_drug (some exRsOnlyText) "p.vcf" "WARFARIN" = .ok res ∧
      lookupGene res.parsed_genes res.gene = none ∧
      res.risk = "Unknown" ∧ res.confidence_score = 0 ∧
      res.recommendation = "Insufficient data to apply CPIC rule for " ++ res.gene ++ "." :=
  ⟨buildResult (decodedParse (some exRsOnlyText) "p.vcf") "WARFARIN" warfarinConfig, rfl,
    by decide,
    claim_C5_missing_gene_unknown exRsOnlyText "p.vcf" "WARFARIN" _ rfl (by decide)⟩

/-- C6: when the required gene is present with fewer than two collected
star tokens but at least one star or rsID, the diplotype is absent
(rendered `"Unknown"`), the phenotype is `"Unknown"`, the gene counts as
detected, and the confidence is exactly the 0.4 gene-detected signal. -/
theorem claim_C6_incomplete_diplotype (text f dr : String) (res : AnalysisResult)
    (r : GeneRecord)
    (hok : analyze_vcf_and_drug (some text) f dr = .ok res)
    (hfind : lookupGene res.parsed_genes res.gene = some r)
    (hlt : r.stars.length < 2)
    (hsig : r.stars ≠ [] ∨ r.rsids ≠ []) :
    res.diplotype = "Unknown" ∧ res.phenotype = "Unknown" ∧
    res.quality_metrics.gene_detected = true ∧ res.confidence_score = 0.4 := by
  obtain ⟨cfg, hC, rfl⟩ := (analyze_eq_ok_iff (some text) f dr res).1 hok
  have hcfg3 : cfg = codeineConfig ∨ cfg = clopidogrelConfig ∨ cfg = warfarinConfig := by
    rcases CPIC_RULES_cases hC with ⟨-, h⟩ | ⟨-, h⟩ | ⟨-, h⟩ <;> simp [h]
  rw [buildResult_parsed_genes, buildResult_gene] at hfind
  have hg : geneDataOf (decodedParse (some text) f) cfg.gene = some r := hfind
  have hdip : diplotypeOf (decodedParse (some text) f) cfg.gene = none := by
    unfold diplotypeOf; rw [hg]; exact build_diplotype_short hlt
  have hph : phenotypeOf (decodedParse (some text) f) cfg.gene = "Unknown" := by
    unfold phenotypeOf; rw [hdip]; rfl
  have hrd : ruleDecisionOf (decodedParse (some text) f) cfg = none := by
    unfold ruleDecisionOf; rw [hph]; exact catalog_unknown_phenotype_none hcfg3
  have hdet : geneDetectedOf (decodedParse (some text) f) cfg.gene = true := by
    unfold geneDetectedOf; rw [hg]
    rcases hsig with h | h <;> simp [List.isEmpty_iff, h]
  refine ⟨?_, hph, ?_, ?_⟩
  · rw [buildResult_diplotype, hdip]; rfl
  · rw [buildResult_gene_detected]; exact hdet
  · rw [buildResult_confidence]; unfold confidenceOf
    rw [hdet, hdip, hrd]
    exact conf_val_TFF

/-- C6 witness: a single-star file and an rsID-only file, both detected
with an absent diplotype and 0.4 confidence. -/
theorem claim_C6_witness :
    (∃ res, analyze_vcf_and_drug (some exOneStarText) "p.vcf" "CODEINE" = .ok res ∧
      res.diplotype = "Unknown" ∧ res.phenotype = "Unknown" ∧
      res.quality_metrics.gene_detected = true ∧ res.confidence_score = 0.4) ∧
    (∃ res, analyze_vcf_and_drug (some exRsOnlyText) "p.vcf" "CODEINE" = .ok res ∧
      res.diplotype = "Unknown" ∧ res.phenotype = "Unknown" ∧
      res.quality_metrics.gene_detected = true ∧ res.confidence_score = 0.4) :=
  ⟨⟨buildResult (decodedParse (some exOneStarText) "p.vcf") "CODEINE" codeineConfig, rfl,
     claim_C6_incomplete_diplotype exOneStarText "p.vcf" "CODEINE" _
       ⟨["*1"], ["rs3892097"]⟩ rfl (by decide) (by decide) (by decide)⟩,
   ⟨buildResult (decodedParse (some exRsOnlyText) "p.vcf") "CODEINE" codeineConfig, rfl,
     claim_C6_incomplete_diplotype exRsOnlyText "p.vcf" "CODEINE" _
       ⟨[], ["rs3892097"]⟩ rfl (by decide) (by decide) (by decide)⟩⟩

/-- C7: every analysis confidence lies in the six-value set
{0, 0.3, 0.4, 0.6, 0.7, 1}; the scorer maps every signal combination into
that set, and every value of the set is reached by some combination of the
three 0.4/0.3/0.3-weighted boolean signals. -/
theorem claim_C7_confidence_values :
    (∀ (d : Option String) (f dr : String) (res : AnalysisResult),
        analyze_vcf_and_drug d f dr = .ok res →
        res.confidence_score ∈ ([0, 0.3, 0.4, 0.6, 0.7, 1] : List ℚ)) ∧
    (∀ g dp r : Bool,
        _confidence_score g dp r ∈ ([0, 0.3, 0.4, 0.6, 0.7, 1] : List ℚ)) ∧
    (∀ q ∈ ([0, 0.3, 0.4, 0.6, 0.7, 1] : List ℚ),
        ∃ g dp r : Bool, _confidence_score g dp r = q) := by
  have part2 : ∀ g dp r : Bool,
      _confidence_score g dp r ∈ ([0, 0.3, 0.4, 0.6, 0.7, 1] : List ℚ) := by
    intro g dp r
    cases g <;> cases dp <;> cases r <;>
      simp only [conf_val_FFF, conf_val_FFT, conf_val_FTF, conf_val_FTT, conf_val_TFF,
        conf_val_TFT, conf_val_TTF, conf_val_TTT] <;> norm_num
  refine ⟨?_, part2, ?_⟩
  · intro d f dr res hok
    obtain ⟨cfg, hC, rfl⟩ := (analyze_eq_ok_iff d f dr res).1 hok
    rw [buildResult_confidence]
    unfold confidenceOf
    exact part2 _ _ _
  · intro q hq
    simp only [List.mem_cons, List.not_mem_nil, or_false] at hq
    rcases hq with rfl | rfl | rfl | rfl | rfl | rfl
    · exact ⟨false, false, false, conf_val_FFF⟩
    · exact ⟨false, false, true, conf_val_FFT⟩
    · exact ⟨true, false, false, conf_val_TFF⟩
    · exact ⟨false, true, true, conf_val_FTT⟩
    · exact ⟨true, true, false, conf_val_TTF⟩
    · exact ⟨true, true, true, conf_val_TTT⟩

/-- C7 witness: the membership bound applied at a concrete analysis. -/
theorem claim_C7_witness :
    (buildResult (decodedParse none "p.vcf") "CODEINE" codeineConfig).confidence_score ∈
      ([0, 0.3, 0.4, 0.6, 0.7, 1] : List ℚ) :=
  claim_C7_confidence_values.1 none "p.vcf" "CODEINE" _ rfl

/-- C10: in every returned result the rule-applied flag holds exactly when
the risk differs from `"Unknown"`, the clinical trace mirrors the flag as
`"Yes"`/`"No"`, and a false flag forces the generated insufficient-data
recommendation naming the required gene. -/
theorem claim_C10_rule_applied_iff (d : Option String) (f dr : String) (res : AnalysisResult)
    (hok : analyze_vcf_and_drug d f dr = .ok res) :
    (res.quality_metrics.rule_applied = true ↔ res.risk ≠ "Unknown") ∧
    res.clinical_trace.cpic_rule_applied =
      (if res.quality_metrics.rule_applied then "Yes" else "No") ∧
    (res.quality_metrics.rule_applied = false →
      res.recommendation = _unknown_recommendation res.gene) := by
  obtain ⟨cfg, hC, rfl⟩ := (analyze_eq_ok_iff d f dr res).1 hok
  have hcfg3 : cfg = codeineConfig ∨ cfg = clopidogrelConfig ∨ cfg = warfarinConfig := by
    rcases CPIC_RULES_cases hC with ⟨-, h⟩ | ⟨-, h⟩ | ⟨-, h⟩ <;> simp [h]
  cases hrd : ruleDecisionOf (decodedParse d f) cfg with
  | none =>
      refine ⟨?_, ?_, ?_⟩
      · rw [buildResult_rule_applied, buildResult_risk]; unfold riskOf; rw [hrd]; simp
      · rw [buildResult_trace_rule, buildResult_rule_applied, hrd]
      · intro _
        rw [buildResult_recommendation, buildResult_gene]; unfold recommendationOf; rw [hrd]
  | some dec =>
      have hrd' : cfg.phenotypes (phenotypeOf (decodedParse d f) cfg.gene) = some dec := hrd
      have hne : dec.risk ≠ "Unknown" := catalog_risk_ne_unknown hcfg3 hrd'
      refine ⟨?_, ?_, ?_⟩
      · rw [buildResult_rule_applied, buildResult_risk]; unfold riskOf; rw [hrd]; simp [hne]
      · rw [buildResult_trace_rule, buildResult_rule_applied, hrd]
      · rw [buildResult_rule_applied, hrd]; intro h; cases h

/-- C10 witness: the invariant applied at a concrete analysis whose rule
matched. -/
theorem claim_C10_witness :
    ∃ res, analyze_vcf_and_drug (some exC1Text) "p.vcf" "CODEINE" = .ok res ∧
      ((res.quality_metrics.rule_applied = true ↔ res.risk ≠ "Unknown") ∧
       res.clinical_trace.cpic_rule_applied =
         (if res.quality_metrics.rule_applied then "Yes" else "No") ∧
       (res.quality_metrics.rule_applied = false →
         res.recommendation = _unknown_recommendation res.gene)) :=
  ⟨buildResult (decodedParse (some exC1Text) "p.vcf") "CODEINE" codeineConfig, rfl,
    claim_C10_rule_applied_iff (some exC1Text) "p.vcf" "CODEINE" _ rfl⟩

/-- C1: whenever a returned result has a detected gene, a complete
diplotype and a phenotype among NM/IM/PM, its confidence is exactly 1 and
its risk and recommendation are exactly the Rule Catalog entry for the
(normalized drug, phenotype) pair; in particular the concrete `*1`/`*4`
`CYP2D6` file analysed for `CODEINE` yields diplotype `"*1/*4"`, phenotype
`"IM"`, risk `"Adjust Dosage"`, confidence 1 and severity `"moderate"`. -/
theorem claim_C1_rule_hit_full_confidence :
    (∀ (d : Option String) (f dr : String) (res : AnalysisResult),
        analyze_vcf_and_drug d f dr = .ok res →
        res.quality_metrics.gene_detected = true →
        res.diplotype ≠ "Unknown" →
        res.phenotype ∈ (["NM", "IM", "PM"] : List String) →
        res.confidence_score = 1 ∧
          ∃ cfg dec, CPIC_RULES res.drug = some cfg ∧
            cfg.phenotypes res.phenotype = some dec ∧
            res.risk = dec.risk ∧ res.recommendation = dec.recommendation) ∧
    (∃ res, analyze_vcf_and_drug (some exC1Text) "patient.vcf" "CODEINE" = .ok res ∧
        res.diplotype = "*1/*4" ∧ res.phenotype = "IM" ∧ res.risk = "Adjust Dosage" ∧
        res.confidence_score = 1 ∧ res.severity = "moderate") := by
  constructor
  · intro d f dr res hok hdet hdipne hmem
    obtain ⟨cfg, hC, rfl⟩ := (analyze_eq_ok_iff d f dr res).1 hok
    have hcfg3 : cfg = codeineConfig ∨ cfg = clopidogrelConfig ∨ cfg = warfarinConfig := by
      rcases CPIC_RULES_cases hC with ⟨-, h⟩ | ⟨-, h⟩ | ⟨-, h⟩ <;> simp [h]
    rw [buildResult_phenotype] at hmem
    have hne : phenotypeOf (decodedParse d f) cfg.gene ≠ "Unknown" := by
      rcases (by simpa using hmem : phenotypeOf (decodedParse d f) cfg.gene = "NM" ∨
          phenotypeOf (decodedParse d f) cfg.gene = "IM" ∨
          phenotypeOf (decodedParse d f) cfg.gene = "PM") with h | h | h <;>
        rw [h] <;> decide
    obtain ⟨hdipsome, hdet'⟩ := phenotypeOf_ne_unknown hne
    have hsome : (cfg.phenotypes (phenotypeOf (decodedParse d f) cfg.gene)).isSome = true :=
      catalog_phenotype_isSome hcfg3 hmem
    obtain ⟨dec, hdec⟩ := Option.isSome_iff_exists.1 hsome
    have hrd : ruleDecisionOf (decodedParse d f) cfg = some dec := hdec
    constructor
    · rw [buildResult_confidence]; unfold confidenceOf
      rw [hdet', hdipsome, hrd]
      exact conf_val_TTT
    · refine ⟨cfg, dec, ?_, ?_, ?_, ?_⟩
      · rw [buildResult_drug]; exact hC
      · rw [buildResult_phenotype]; exact hdec
      · rw [buildResult_risk]; unfold riskOf; rw [hrd]
      · rw [buildResult_recommendation]; unfold recommendationOf; rw [hrd]
  · refine ⟨buildResult (decodedParse (some exC1Text) "patient.vcf") "CODEINE" codeineConfig,
      rfl, by decide, by decide, by decide, ?_, by decide⟩
    have e1 : geneDetectedOf (decodedParse (some exC1Text) "patient.vcf") codeineConfig.gene
        = true := by decide
    have e2 : (diplotypeOf (decodedParse (some exC1Text) "patient.vcf")
        codeineConfig.gene).isSome = true := by decide
    have e3 : (ruleDecisionOf (decodedParse (some exC1Text) "patient.vcf")
        codeineConfig).isSome = true := by decide
    rw [buildResult_confidence]; unfold confidenceOf
    rw [e1, e2, e3]
    exact conf_val_TTT

/-- C1 witness: the universal part applied at the concrete `*1`/`*4`
scenario, all hypotheses discharged by evaluation. -/
theorem claim_C1_witness :
    ∃ res, analyze_vcf_and_drug (some exC1Text) "patient.vcf" "CODEINE" = .ok res ∧
      res.confidence_score = 1 :=
  ⟨buildResult (decodedParse (some exC1Text) "patient.vcf") "CODEINE" codeineConfig, rfl,
    (claim_C1_rule_hit_full_confidence.1 (some exC1Text) "patient.vcf" "CODEINE" _
      rfl (by decide) (by decide) (by decide)).1⟩

/-- The first key component is the parsed leading integer, sentinel 9999
when none parses. -/
lemma star_key_fst (s : String) : (_star_sort_key s).1 = (specNumericKey s).getD 9999 := by
  obtain ⟨l⟩ := s
  unfold _star_sort_key specNumericKey
  cases l with
  | nil => rfl
  | cons c rest =>
      by_cases hc : c = '*'
      · subst hc
        simp only [if_pos]
        by_cases hd : rest.takeWhile Char.isDigit = [] <;> simp [hd]
      · simp [hc]

/-- A token without a parseable numeric key gets the full sentinel key
`(9999, token)`. -/
lemma star_key_of_none {s : String} (h : specNumericKey s = none) :
    _star_sort_key s = (9999, s) := by
  obtain ⟨l⟩ := s
  unfold specNumericKey at h
  unfold _star_sort_key
  cases l with
  | nil => rfl
  | cons c rest =>
      by_cases hc : c = '*'
      · subst hc
        simp only [if_pos] at h ⊢
        by_cases hd : rest.takeWhile Char.isDigit = []
        · simp [hd]
        · simp [hd] at h
      · simp [hc]

/-- Tuple comparison succeeds on a strictly smaller first component. -/
lemma keyLE_of_lt {x y : Nat × String} (h : x.1 < y.1) : keyLE x y = true := by
  simp [keyLE, h]

/-- Tuple comparison fails on a strictly larger first component. -/
lemma keyLE_false_of_gt {x y : Nat × String} (h : y.1 < x.1) : keyLE x y = false := by
  have h1 : ¬ (x.1 < y.1) := by omega
  have h2 : ¬ (x.1 = y.1) := by omega
  simp [keyLE, h1, h2]

/-- The two-token sort of `build_diplotype` under a strict key order. -/
lemma build_diplotype_of_key_lt {a b : String}
    (h : (_star_sort_key a).1 < (_star_sort_key b).1) (rest : List String) :
    build_diplotype (a :: b :: rest) = some (a ++ "/" ++ b) ∧
    build_diplotype (b :: a :: rest) = some (a ++ "/" ++ b) := by
  constructor
  · simp [build_diplotype, keyLE_of_lt h]
  · simp [build_diplotype, keyLE_false_of_gt h]

/-- C3 counterexample: `"*A"` has no parseable numeric suffix yet sorts
*before* the numerically keyed `"*10000"`, because the sentinel is the
finite value 9999; the claim's "tokens without a parseable numeric suffix
sort last" fails at this input. -/
theorem claim_C3_counterexample :
    specNumericKey "*10000" = some 10000 ∧ specNumericKey "*A" = none ∧
    build_diplotype ["*10000", "*A"] = some "*A/*10000" ∧
    build_diplotype ["*10000", "*A"] ≠ some ("*10000" ++ "/" ++ "*A") := by decide

/-- C3 (amended): fewer than two tokens build nothing; only the first two
tokens ever matter; the sort key is the integer parsed from the leading
digits after the `*` (tokens without one are keyed by the sentinel 9999 and
then lexicographically by the whole token, hence after any token with
numeric value below 9999, though not after numeric values of 9999 or more);
numerically keyed pairs render strictly by their integers, so tokens
numbered 1 and 4 always render as `"*1/*4"`. -/
theorem claim_C3_diplotype_builder_amended :
    (∀ stars : List String, stars.length < 2 → build_diplotype stars = none) ∧
    (∀ (s0 s1 : String) (rest : List String),
        build_diplotype (s0 :: s1 :: rest) = build_diplotype [s0, s1]) ∧
    (∀ s : String, (_star_sort_key s).1 = (specNumericKey s).getD 9999 ∧
        (specNumericKey s = none → _star_sort_key s = (9999, s))) ∧
    (∀ (a b : String) (na nb : Nat), specNumericKey a = some na →
        specNumericKey b = some nb → na < nb → ∀ rest : List String,
        build_diplotype (a :: b :: rest) = some (a ++ "/" ++ b) ∧
        build_diplotype (b :: a :: rest) = some (a ++ "/" ++ b)) ∧
    (∀ (a b : String) (na : Nat), specNumericKey a = some na →
        specNumericKey b = none → na < 9999 → ∀ rest : List String,
        build_diplotype (a :: b :: rest) = some (a ++ "/" ++ b) ∧
        build_diplotype (b :: a :: rest) = some (a ++ "/" ++ b)) ∧
    (∀ rest : List String,
        build_diplotype ("*1" :: "*4" :: rest) = some "*1/*4" ∧
        build_diplotype ("*4" :: "*1" :: rest) = some "*1/*4") := by
  have part4 : ∀ (a b : String) (na nb : Nat), specNumericKey a = some na →
      specNumericKey b = some nb → na < nb → ∀ rest : List String,
      build_diplotype (a :: b :: rest) = some (a ++ "/" ++ b) ∧
      build_diplotype (b :: a :: rest) = some (a ++ "/" ++ b) := by
    intro a b na nb ha hb hlt rest
    refine build_diplotype_of_key_lt ?_ rest
    rw [star_key_fst, star_key_fst, ha, hb]
    exact hlt
  refine ⟨fun _ h => build_diplotype_short h, ?_, ?_, part4, ?_, ?_⟩
  · intro s0 s1 rest; rfl
  · intro s; exact ⟨star_key_fst s, fun h => star_key_of_none h⟩
  · intro a b na ha hb hlt rest
    refine build_diplotype_of_key_lt ?_ rest
    rw [star_key_fst, star_key_fst, ha, hb]
    exact hlt
  · intro rest
    have h : build_diplotype ("*1" :: "*4" :: rest) = some ("*1" ++ "/" ++ "*4") ∧
        build_diplotype ("*4" :: "*1" :: rest) = some ("*1" ++ "/" ++ "*4") :=
      part4 "*1" "*4" 1 4 (by decide) (by decide) (by decide) rest
    exact ⟨h.1, h.2⟩

/-- C3 witness: the ordering clauses applied at concrete tokens. -/
theorem claim_C3_witness :
    (build_diplotype ["*4", "*1", "*9"] = some "*1/*4") ∧
    (build_diplotype ["*7", "*B"] = some ("*7" ++ "/" ++ "*B")) ∧
    (build_diplotype ["*1"] = none) :=
  ⟨(claim_C3_diplotype_builder_amended.2.2.2.2.2 ["*9"]).2,
   (claim_C3_diplotype_builder_amended.2.2.2.2.1 "*7" "*B" 7 (by decide) (by decide)
      (by decide) []).1,
   claim_C3_diplotype_builder_amended.1 ["*1"] (by decide)⟩

/-- The engine's structured-field loop is the ordered first-success search
of the specification. -/
lemma geneFieldLoop_eq_findSome (fs : List String) (u : String) :
    geneFieldLoop fs u = fs.findSome? (fun f =>
      (fieldRawValue f u).bind fun raw =>
        if raw ∈ SUPPORTED_GENES then some raw else none) := by
  induction fs with
  | nil => rfl
  | cons f fs ih =>
      unfold geneFieldLoop
      cases h : fieldRawValue f u with
      | none => simp [List.findSome?_cons, h, ih]
      | some raw =>
          by_cases hmem : raw ∈ SUPPORTED_GENES <;>
            simp [List.findSome?_cons, h, hmem, ih]

/-- C8: gene detection is exactly the specification's strategy order — the
structured four-field lookup over the upper-cased combined text accepting
only supported values, then the declaration-order substring scan — and a
data line on which neither strategy succeeds leaves the parse state
untouched. -/
theorem claim_C8_gene_detection_strategy :
    (∀ text : String, _extract_gene text = extractGeneSpec text) ∧
    (∀ (genes : List (String × GeneRecord)) (line : List Char),
        _extract_gene (combinedOf line) = none → processLine genes line = genes) := by
  constructor
  · intro text
    simp only [_extract_gene, extractGeneSpec]
    rw [geneFieldLoop_eq_findSome]
    cases h : List.findSome? (fun f =>
        (fieldRawValue f (pyUpper text)).bind fun raw =>
          if raw ∈ SUPPORTED_GENES then some raw else none)
        ["GENE", "SYMBOL", "GENE_NAME", "HGNC"] with
    | none => simp [h, Option.orElse]
    | some g => simp [h, Option.orElse]
  · intro genes line h
    unfold combinedOf at h
    simp only [processLine]
    split
    · rfl
    · split
      · rfl
      · split
        · rfl
        · rename_i gene hgene
          rw [h] at hgene
          cases hgene

/-- C8 witness: the refinement at a concrete text, and a concrete
unmatched data line contributing nothing. -/
theorem claim_C8_witness :
    _extract_gene "GENE=CYP2C19" = extractGeneSpec "GENE=CYP2C19" ∧
    processLine [] ("1\t2\t3\t4\t5\t6\t7\tFOO=1".data) = [] :=
  ⟨claim_C8_gene_detection_strategy.1 "GENE=CYP2C19",
   claim_C8_gene_detection_strategy.2 [] ("1\t2\t3\t4\t5\t6\t7\tFOO=1".data) (by decide)⟩

/-- `Char.toUpper` unfolded. -/
lemma toUpper_eq (c : Char) :
    c.toUpper = if c.toNat ≥ 97 ∧ c.toNat ≤ 122 then Char.ofNat (c.toNat - 32) else c := rfl

/-- `Char.ofNat` round-trips on valid code points. -/
lemma toNat_ofNat_valid {n : Nat} (h : n.isValidChar) : (Char.ofNat n).toNat = n := by
  rw [Char.ofNat, dif_pos h]; rfl

/-- The ASCII upper-case map is idempotent. -/
lemma toUpper_idem (c : Char) : c.toUpper.toUpper = c.toUpper := by
  by_cases h : c.toNat ≥ 97 ∧ c.toNat ≤ 122
  · rw [toUpper_eq c, if_pos h]
    have hv : Nat.isValidChar (c.toNat - 32) := Or.inl (by omega)
    have ht : (Char.ofNat (c.toNat - 32)).toNat = c.toNat - 32 := toNat_ofNat_valid hv
    rw [toUpper_eq, ht, if_neg (by omega)]
  · rw [toUpper_eq c, if_neg h, toUpper_eq c, if_neg h]

/-- Upper-casing a character list is idempotent. -/
lemma map_toUpper_idem (l : List Char) :
    (l.map Char.toUpper).map Char.toUpper = l.map Char.toUpper := by
  induction l with
  | nil => rfl
  | cons c t ih => simp [ih, toUpper_idem]

/-- `pyUpper` is idempotent. -/
lemma pyUpper_idem (s : String) : pyUpper (pyUpper s) = pyUpper s :=
  congrArg String.mk (map_toUpper_idem s.data)

/-- Every token emitted by the star scanner is a `*` followed by a
nonempty run. -/
lemma findStarsAux_shape : ∀ (cs : List Char) (st : Option (List Char)) (l : List Char),
    l ∈ findStarsAux st cs → ∃ run, run ≠ [] ∧ l = '*' :: run := by
  intro cs
  induction cs with
  | nil =>
      intro st l hl
      match st with
      | none => cases hl
      | some revRun =>
          by_cases h : revRun = []
          · simp [findStarsAux, h] at hl
          · simp only [findStarsAux, if_neg h, List.mem_singleton] at hl
            exact ⟨revRun.reverse, by simpa using h, hl⟩
  | cons c t ih =>
      intro st l hl
      match st with
      | some revRun =>
          simp only [findStarsAux] at hl
          by_cases ha : c.isAlphanum
          · rw [if_pos ha] at hl
            exact ih _ _ hl
          · rw [if_neg ha] at hl
            rcases List.mem_append.1 hl with h1 | h2
            · by_cases h : revRun = []
              · simp [h] at h1
              · simp only [if_neg h, List.mem_singleton] at h1
                exact ⟨revRun.reverse, by simpa using h, h1⟩
            · exact ih _ _ h2
      | none =>
          simp only [findStarsAux] at hl
          by_cases hc : c = '*'
          · rw [if_pos hc] at hl
            exact ih _ _ hl
          · rw [if_neg hc] at hl
            exact ih _ _ hl

/-- Deduplication only keeps elements of its input. -/
lemma foldl_dedup_mem : ∀ (xs acc : List String) (s : String),
    s ∈ xs.foldl (fun acc s => if acc.contains s then acc else acc ++ [s]) acc →
    s ∈ acc ∨ s ∈ xs := by
  intro xs
  induction xs with
  | nil => intro acc s h; exact Or.inl h
  | cons x t ih =>
      intro acc s h
      simp only [List.foldl_cons] at h
      rcases ih _ s h with h1 | h2
      · by_cases hc : acc.contains x
        · rw [if_pos hc] at h1; exact Or.inl h1
        · rw [if_neg hc] at h1
          rcases List.mem_append.1 h1 with h3 | h4
          · exact Or.inl h3
          · simp only [List.mem_singleton] at h4
            subst h4
            exact Or.inr (List.mem_cons_self _ _)
      · exact Or.inr (List.mem_cons_of_mem _ h2)

/-- Every token of `_extract_stars` is upper-case-normalized and shaped
`*`-then-nonempty-run. -/
lemma mem_extract_stars {text : String} {s : String} (h : s ∈ _extract_stars text) :
    pyUpper s = s ∧ ∃ run, run ≠ [] ∧ s.data = '*' :: run := by
  unfold _extract_stars dedupStr at h
  rcases foldl_dedup_mem _ [] s h with h1 | h2
  · cases h1
  · rcases List.mem_map.1 h2 with ⟨l, hl, rfl⟩
    obtain ⟨run, hne, rfl⟩ := findStarsAux_shape _ _ _ hl
    constructor
    · exact congrArg String.mk (map_toUpper_idem _)
    · refine ⟨run.map Char.toUpper, by simpa using hne, ?_⟩
      simp [show Char.toUpper '*' = '*' from rfl]

/-- `addStars` keeps uniqueness, keeps any per-token property, and leaves
the rsIDs untouched. -/
lemma addStars_inv {P : String → Prop} : ∀ (toks : List String) (r : GeneRecord),
    r.stars.Nodup → (∀ s ∈ r.stars, P s) → (∀ s ∈ toks, P s) →
    (addStars r toks).stars.Nodup ∧ (∀ s ∈ (addStars r toks).stars, P s) ∧
      (addStars r toks).rsids = r.rsids := by
  intro toks
  induction toks with
  | nil => intro r h1 h2 _; exact ⟨h1, h2, rfl⟩
  | cons x t ih =>
      intro r h1 h2 h3
      unfold addStars
      simp only [List.foldl_cons]
      by_cases hc : r.stars.contains x
      · rw [if_pos hc]
        exact ih r h1 h2 (fun s hs => h3 s (List.mem_cons_of_mem _ hs))
      · rw [if_neg hc]
        have hx : x ∉ r.stars := by simpa using hc
        refine ih _ ?_ ?_ (fun s hs => h3 s (List.mem_cons_of_mem _ hs))
        · simp only []
          rw [List.nodup_append]
          exact ⟨h1, List.nodup_singleton x, by
            intro a ha hb
            simp only [List.mem_singleton] at hb
            subst hb
            exact hx ha⟩
        · intro s hs
          rcases List.mem_append.1 hs with h4 | h5
          · exact h2 s h4
          · simp only [List.mem_singleton] at h5
            subst h5
            exact h3 s (List.mem_cons_self _ _)

/-- `addRsid` keeps the star list and preserves rsID uniqueness. -/
lemma addRsid_inv (r : GeneRecord) (o : Option String) (h : r.rsids.Nodup) :
    (addRsid r o).stars = r.stars ∧ (addRsid r o).rsids.Nodup := by
  match o with
  | none => exact ⟨rfl, h⟩
  | some rs =>
      unfold addRsid
      dsimp only
      by_cases hc : r.rsids.contains rs
      · rw [if_pos hc]; exact ⟨rfl, h⟩
      · rw [if_neg hc]
        have hx : rs ∉ r.rsids := by simpa using hc
        refine ⟨rfl, ?_⟩
        simp only []
        rw [List.nodup_append]
        exact ⟨h, List.nodup_singleton rs, by
          intro a ha hb
          simp only [List.mem_singleton] at hb
          subst hb
          exact hx ha⟩

/-- Members after an upsert are old members or the upserted pair. -/
lemma upsertGene_mem {genes : List (String × GeneRecord)} {gene : String} {r : GeneRecord}
    {p : String × GeneRecord} (h : p ∈ upsertGene genes gene r) :
    p ∈ genes ∨ p = (gene, r) := by
  unfold upsertGene at h
  by_cases hs : (lookupGene genes gene).isSome
  · rw [if_pos hs] at h
    rcases List.mem_map.1 h with ⟨q, hq, hqe⟩
    by_cases hb : q.1 == gene
    · rw [if_pos hb] at hqe; exact Or.inr hqe.symm
    · rw [if_neg hb] at hqe; subst hqe; exact Or.inl hq
  · rw [if_neg hs] at h
    rcases List.mem_append.1 h with h1 | h2
    · exact Or.inl h1
    · simp only [List.mem_singleton] at h2
      exact Or.inr h2

/-- A successful gene lookup is a membership in the gene map. -/
lemma lookupGene_mem {genes : List (String × GeneRecord)} {gene : String} {r : GeneRecord}
    (h : lookupGene genes gene = some r) : (gene, r) ∈ genes := by
  unfold lookupGene at h
  cases hf : genes.find? (fun p => p.1 == gene) with
  | none => rw [hf] at h; cases h
  | some q =>
      rw [hf] at h
      obtain ⟨k, v⟩ := q
      simp at h
      subst h
      have hk : (k == gene) = true := by simpa using List.find?_some hf
      cases eq_of_beq hk
      exact List.mem_of_find?_eq_some hf

/-- The structured-field loop only returns supported genes. -/
lemma geneFieldLoop_mem : ∀ (fs : List String) (u : String) (g : String),
    geneFieldLoop fs u = some g → g ∈ SUPPORTED_GENES := by
  intro fs
  induction fs with
  | nil => intro u g h; cases h
  | cons f t ih =>
      intro u g h
      unfold geneFieldLoop at h
      cases hf : fieldRawValue f u with
      | none => rw [hf] at h; exact ih u g h
      | some raw =>
          rw [hf] at h
          dsimp only at h
          by_cases hm : raw ∈ SUPPORTED_GENES
          · rw [if_pos hm] at h; cases h; exact hm
          · rw [if_neg hm] at h; exact ih u g h

/-- `_extract_gene` only returns supported genes. -/
lemma extract_gene_mem {text : String} {g : String} (h : _extract_gene text = some g) :
    g ∈ SUPPORTED_GENES := by
  simp only [_extract_gene] at h
  cases hfl : geneFieldLoop ["GENE", "SYMBOL", "GENE_NAME", "HGNC"] (pyUpper text) with
  | some g' =>
      rw [hfl] at h
      cases h
      exact geneFieldLoop_mem _ _ _ hfl
  | none =>
      rw [hfl] at h
      exact List.mem_of_find?_eq_some h

/-- One parse step preserves the gene-map invariant: supported keys,
unique normalized star tokens, unique rsIDs. -/
lemma processLine_inv {genes : List (String × GeneRecord)} {line : List Char}
    (h : ∀ p ∈ genes, p.1 ∈ SUPPORTED_GENES ∧ p.2.stars.Nodup ∧
      (∀ s ∈ p.2.stars, pyUpper s = s ∧ ∃ run, run ≠ [] ∧ s.data = '*' :: run) ∧
      p.2.rsids.Nodup) :
    ∀ p ∈ processLine genes line, p.1 ∈ SUPPORTED_GENES ∧ p.2.stars.Nodup ∧
      (∀ s ∈ p.2.stars, pyUpper s = s ∧ ∃ run, run ≠ [] ∧ s.data = '*' :: run) ∧
      p.2.rsids.Nodup := by
  intro p hp
  simp only [processLine] at hp
  split at hp
  · exact h p hp
  · split at hp
    · exact h p hp
    · split at hp
      · exact h p hp
      · rename_i gene hgene
        rcases upsertGene_mem hp with hmem | rfl
        · exact h p hmem
        · refine ⟨extract_gene_mem hgene, ?_⟩
          have hr0 : ((lookupGene genes gene).getD ⟨[], []⟩).stars.Nodup ∧
              (∀ s ∈ ((lookupGene genes gene).getD ⟨[], []⟩).stars,
                pyUpper s = s ∧ ∃ run, run ≠ [] ∧ s.data = '*' :: run) ∧
              ((lookupGene genes gene).getD ⟨[], []⟩).rsids.Nodup := by
            cases hl : lookupGene genes gene with
            | none =>
                exact ⟨List.nodup_nil, fun s hs => absurd hs (List.not_mem_nil s),
                  List.nodup_nil⟩
            | some r =>
                have hi := h (gene, r) (lookupGene_mem hl)
                exact ⟨hi.2.1, hi.2.2.1, hi.2.2.2⟩
          obtain ⟨h0n, h0p, h0r⟩ := hr0
          obtain ⟨h1n, h1p, h1r⟩ :=
            addStars_inv
              (_extract_stars (String.mk (line ++ [';'] ++
                pyStripL ((splitChar '\t' line).getD 7 []))))
              ((lookupGene genes gene).getD ⟨[], []⟩) h0n h0p
              (fun s hs => mem_extract_stars hs)
          have hr2 := addRsid_inv
            (addStars ((lookupGene genes gene).getD ⟨[], []⟩)
              (_extract_stars (String.mk (line ++ [';'] ++
                pyStripL ((splitChar '\t' line).getD 7 [])))))
            (_extract_rsid line (String.mk (pyStripL ((splitChar '\t' line).getD 2 []))))
            (h1r ▸ h0r)
          refine ⟨?_, ?_, ?_⟩
          · rw [hr2.1]; exact h1n
          · intro s hs; rw [hr2.1] at hs; exact h1p s hs
          · exact hr2.2

/-- The whole parse loop preserves the gene-map invariant. -/
lemma foldl_processLine_inv : ∀ (ls : List (List Char)) (acc : List (String × GeneRecord)),
    (∀ p ∈ acc, p.1 ∈ SUPPORTED_GENES ∧ p.2.stars.Nodup ∧
      (∀ s ∈ p.2.stars, pyUpper s = s ∧ ∃ run, run ≠ [] ∧ s.data = '*' :: run) ∧
      p.2.rsids.Nodup) →
    ∀ p ∈ ls.foldl processLine acc, p.1 ∈ SUPPORTED_GENES ∧ p.2.stars.Nodup ∧
      (∀ s ∈ p.2.stars, pyUpper s = s ∧ ∃ run, run ≠ [] ∧ s.data = '*' :: run) ∧
      p.2.rsids.Nodup := by
  intro ls
  induction ls with
  | nil => intro acc h; exact h
  | cons l t ih =>
      intro acc h
      simp only [List.foldl_cons]
      exact ih _ (processLine_inv h)

/-- C9 counterexample: an ID column beginning with `rs` is stored verbatim,
so the rsID `"rsAB1"` reaches the gene record with its upper-case letters
intact — rsIDs are not case-normalized as the claim states. -/
theorem claim_C9_counterexample :
    lookupGene (parse_vcf exMixedCaseRsText "p.vcf").genes "CYP2D6" =
      some ⟨[], ["rsAB1"]⟩ ∧
    pyLower "rsAB1" ≠ "rsAB1" ∧ pyUpper "rsAB1" ≠ "rsAB1" := by decide

/-- C9 (amended): every gene key of a parsed file is in the supported set;
within each record the star tokens are unique, upper-case-normalized and
`*`-shaped, and the rsIDs are unique — but rsIDs are not case-normalized
(an ID column already starting with `rs` is stored verbatim). -/
theorem claim_C9_parse_invariants_amended (text f g : String) (r : GeneRecord)
    (hmem : (g, r) ∈ (parse_vcf text f).genes) :
    g ∈ SUPPORTED_GENES ∧ r.stars.Nodup ∧
    (∀ s ∈ r.stars, pyUpper s = s ∧ ∃ run, run ≠ [] ∧ s.data = '*' :: run) ∧
    r.rsids.Nodup :=
  foldl_processLine_inv ((pySplitlines text).map rstripNl) []
    (fun p hp => absurd hp (List.not_mem_nil p)) (g, r) hmem

/-- C9 witness: the invariants at a concretely parsed record. -/
theorem claim_C9_witness :
    ("CYP2D6" : String) ∈ SUPPORTED_GENES ∧
    (["*1", "*4"] : List String).Nodup ∧
    (∀ s ∈ (["*1", "*4"] : List String),
      pyUpper s = s ∧ ∃ run, run ≠ [] ∧ s.data = '*' :: run) ∧
    (["rs3892097", "rs1065852"] : List String).Nodup :=
  claim_C9_parse_invariants_amended exC1Text "p.vcf" "CYP2D6"
    ⟨["*1", "*4"], ["rs3892097", "rs1065852"]⟩ (by decide)
